import Mathlib

/-!
Shallow embedding of `src/resume_feedback_ai.py` (AI Resume Reviewer).

The program has two functions, `extract_resume_text` and
`get_feedback_nvidia`, plus a UI-driven pipeline (the `st.button` block)
that sequences them.  The external collaborators are modelled as explicit
inputs:

* the PDF extraction library (`pdfminer.extract_text`) is a black box that
  either returns a string or raises: `ExtractionOutcome`;
* the HTTP transport (`requests.post`) is a black box that either raises a
  transport exception or returns a response with a status code and a parsed
  JSON body: `HttpOutcome`;
* the environment credential (`os.getenv "NVIDIA_API_KEY"`) is an
  `Option String` parameter.

Every run record carries the list of outbound POST requests actually made,
so "no network call is attempted" is the statement `sent = []`.
-/

namespace ResumeReviewer

/-- The whitespace predicate of Python's `str.strip` / `str.isspace`,
restricted to the ASCII whitespace characters (space, tab, newline,
vertical tab, form feed, carriage return). -/
def pyIsSpace (c : Char) : Bool :=
  c = ' ' || c = '\t' || c = '\n' || c = Char.ofNat 11 || c = Char.ofNat 12 || c = '\r'

/-- Python `s.strip()`: remove leading and trailing whitespace. -/
def pyStrip (s : String) : String :=
  String.mk (((s.data.dropWhile pyIsSpace).reverse.dropWhile pyIsSpace).reverse)

/-- Python `s.startswith(p)`. -/
def pyStartswith (s p : String) : Bool :=
  p.data.isPrefixOf s.data

/-- `NVIDIA_API_URL` (line 8 of the source). -/
def NVIDIA_API_URL : String := "https://integrate.api.nvidia.com/v1/chat/completions"

/-- Outcome of the black-box PDF extraction call `extract_text(pdf_file)`:
either the extracted string, or a raised exception carried as its text. -/
inductive ExtractionOutcome where
  | ok (text : String)
  | err (detail : String)
deriving DecidableEq

/-- The warning shown by `extract_resume_text` when the extracted text is
empty or whitespace-only (line 30 of the source). -/
def emptyExtractionWarning : String :=
  "⚠️ No readable text found in the PDF. It might be an image-only PDF. Consider converting it to a searchable PDF or try a different file."

/-- The error shown by `extract_resume_text` when the extraction library
raises (line 34 of the source); `e` is the exception detail. -/
def extractionErrorMessage (e : String) : String :=
  "🚫 **Error extracting text from PDF:** Please ensure it\x27s a valid, readable PDF document. Details: " ++ e

/-- Result of a run of `extract_resume_text`: the returned string together
with the warning or error it displayed (if any). -/
structure ExtractResult where
  text : String
  warning : Option String
  error : Option String
deriving DecidableEq

/-- `extract_resume_text` (lines 21–35).  The function returns a string on
every input: the `try`/`except` catches any extraction-library exception and
returns `""`, and whitespace-only extraction also returns `""` after showing
a warning. -/
def extract_resume_text : ExtractionOutcome → ExtractResult
  | .ok t =>
      if pyStrip t = "" then
        { text := "", warning := some emptyExtractionWarning, error := none }
      else
        { text := t, warning := none, error := none }
  | .err e =>
      { text := "", warning := none, error := some (extractionErrorMessage e) }

/-- The placeholder credential value rejected by `get_feedback_nvidia`
(line 43). -/
def placeholderKey : String := "nvapi-YOUR_ACTUAL_API_KEY_HERE"

/-- The known-revoked test key start rejected by `get_feedback_nvidia`
(line 43). -/
def revokedKeyStart : String := "nvapi-ziMpyqbV"

/-- The credential check of line 43:
`not API_KEY or API_KEY == "nvapi-YOUR_ACTUAL_API_KEY_HERE" or
API_KEY.startswith("nvapi-ziMpyqbV")`.  `none` models `os.getenv` returning
`None`; Python's `not API_KEY` is also true for the empty string. -/
def apiKeyInvalid : Option String → Bool
  | none => true
  | some k => k = "" || k = placeholderKey || pyStartswith k revokedKeyStart

/-- `system_prompt_base` (lines 53–69), verbatim. -/
def system_prompt_base : String :=
  "You are a highly professional, empathetic, and constructive resume reviewer. Your goal is to help the user significantly improve their resume. Analyze the provided resume text thoroughly. Focus on the following aspects:\n\n1.  **Overall Impact:** Does it make a strong first impression?\n2.  **Clarity & Conciseness:** Is the language clear, and is it free of jargon or fluff?\n3.  **Action Verbs:** Are strong action verbs used at the beginning of bullet points?\n4.  **Quantifiable Achievements:** Are accomplishments quantified with numbers/data where possible?\n5.  **Keywords & Industry Relevance:** Does it include relevant keywords for the target industry/role?\n6.  **Structure & Formatting:** Is it well-organized and easy to read (e.g., consistent dates, clear sections)?\n7.  **Tailoring:** Does it seem tailored to a specific job or industry?\n\nProvide actionable feedback with specific examples. Suggest improvements for content, wording, and potential areas to expand or condense. Structure your feedback into the following distinct sections, using Markdown for clear formatting (e.g., bullet points, bolding, subheadings):\n\n### Overall Summary\n### Strengths 💪\n### Areas for Improvement 💡\n### Actionable Steps 🚀\n"

/-- The tailoring clause appended on line 71, as a function of the string
interpolated into it (the source interpolates `target_job_role.strip()`). -/
def tailoringClause (role : String) : String :=
  "\n\n**Special consideration:** The user is targeting a **" ++ role
    ++ "** role. Please tailor your keyword and relevance analysis to this role."

/-- The system prompt constructed on lines 53–71: the base template, plus
the tailoring clause when `target_job_role and target_job_role.strip()` is
truthy (i.e. the role is present, non-empty and not whitespace-only). -/
def systemPrompt (target_job_role : Option String) : String :=
  match target_job_role with
  | some r =>
      if r ≠ "" ∧ pyStrip r ≠ "" then
        system_prompt_base ++ tailoringClause (pyStrip r)
      else
        system_prompt_base
  | none => system_prompt_base

/-- The fixed preamble of the user-content message (line 77). -/
def userContentPreamble : String := "Here is the resume text to review:\n\n"

/-- One message object of the request payload. -/
structure Message where
  role : String
  content : String
deriving DecidableEq

/-- The JSON payload of lines 73–82. -/
structure Payload where
  model : String
  messages : List Message
  max_tokens : Nat
  temperature : ℚ
  top_p : ℚ
deriving DecidableEq

/-- The payload built on lines 73–82 from the system prompt and the
user content. -/
def mkPayload (sys user : String) : Payload :=
  { model := "meta/llama3-70b-instruct"
    messages := [⟨"system", sys⟩, ⟨"user", user⟩]
    max_tokens := 1500
    temperature := (0.5 : ℚ)
    top_p := (0.9 : ℚ) }

/-- One outbound `requests.post` call (line 85): URL, headers, payload. -/
structure PostRequest where
  url : String
  authorization : String
  contentType : String
  payload : Payload
deriving DecidableEq

/-- The single POST request of lines 47–50 and 85. -/
def mkRequest (key sys user : String) : PostRequest :=
  { url := NVIDIA_API_URL
    authorization := "Bearer " ++ key
    contentType := "application/json"
    payload := mkPayload sys user }

/-- The `message` member of a response choice; `none` models a missing
`content` key. -/
structure RMessage where
  content : Option String
deriving DecidableEq

/-- One element of the response's `choices` array; `none` models a missing
`message` key. -/
structure RChoice where
  message : Option RMessage
deriving DecidableEq

/-- The parsed JSON body of a response; `none` models a missing `choices`
key. -/
structure ResponseJson where
  choices : Option (List RChoice)
deriving DecidableEq

/-- Outcome of the black-box `requests.post` call: a transport exception
(carried as its text), or a response with an HTTP status and parsed JSON
body. -/
inductive HttpOutcome where
  | response (status : Nat) (body : ResponseJson)
  | transportError (detail : String)
deriving DecidableEq

/-- `response.raise_for_status()` (line 86): `requests` raises an
`HTTPError` exactly for status codes in `[400, 600)`. -/
def raiseForStatus (status : Nat) : Bool :=
  400 ≤ status && status < 600

/-- The shape check of lines 89–92: `"choices" in response_json and
response_json["choices"]` (present and non-empty, by Python truthiness),
then `"message" in first_choice and "content" in first_choice["message"]`;
returns the content string when the shape matches. -/
def firstChoiceContent (body : ResponseJson) : Option String :=
  match body.choices with
  | some (first :: _) =>
      match first.message with
      | some m => m.content
      | none => none
  | _ => none

/-- The error/warning detail carried by a classified failure. -/
inductive ErrorDetail where
  | httpStatus (status : Nat)
  | transport (detail : String)
deriving DecidableEq

/-- Classified outcome of a `get_feedback_nvidia` run. -/
inductive FeedbackOutcome where
  | apiKeyError
  | networkError (detail : ErrorDetail)
  | formatWarning
  | feedback (content : String)
deriving DecidableEq

/-- The Python return value of `get_feedback_nvidia`: the content string on
success (`return first_choice["message"]["content"]`), `None` on every
classified failure. -/
def returnValue : FeedbackOutcome → Option String
  | .feedback s => some s
  | _ => none

/-- A run of `get_feedback_nvidia`: the outbound requests actually posted,
and the classified outcome. -/
structure RequesterRun where
  sent : List PostRequest
  outcome : FeedbackOutcome
deriving DecidableEq

/-- `get_feedback_nvidia` (lines 37–104).  `apiKey` is the process-wide
`API_KEY`; `net` is the behaviour of the single `requests.post` call (used
only if the call is reached).  The credential check of line 43 returns
before any request is built; otherwise exactly one request is posted and
the response is classified per lines 86–104. -/
def get_feedback_nvidia (apiKey : Option String) (net : HttpOutcome)
    (resume_text : String) (target_job_role : Option String := none) :
    RequesterRun :=
  if apiKeyInvalid apiKey then
    { sent := [], outcome := .apiKeyError }
  else
    let req := mkRequest (apiKey.getD "") (systemPrompt target_job_role)
      (userContentPreamble ++ resume_text)
    match net with
    | .transportError e =>
        { sent := [req], outcome := .networkError (.transport e) }
    | .response status body =>
        if raiseForStatus status then
          { sent := [req], outcome := .networkError (.httpStatus status) }
        else
          match firstChoiceContent body with
          | some s => { sent := [req], outcome := .feedback s }
          | none => { sent := [req], outcome := .formatWarning }

/-- A run of the `st.button` pipeline (lines 185–198): the extraction
result, whether `get_feedback_nvidia` was invoked, the requests posted, and
the feedback rendered (if any). -/
structure PipelineRun where
  extracted : ExtractResult
  invokedRequester : Bool
  sent : List PostRequest
  displayedFeedback : Option String
deriving DecidableEq

/-- The pipeline of lines 186–198: extract, then — only `if resume_text:`
(non-empty by Python truthiness) — call `get_feedback_nvidia` with the
`target_role` text-input value and render its feedback if any. -/
def pipelineRun (apiKey : Option String) (net : HttpOutcome)
    (doc : ExtractionOutcome) (target_role : String) : PipelineRun :=
  let er := extract_resume_text doc
  if er.text ≠ "" then
    let run := get_feedback_nvidia apiKey net er.text (some target_role)
    { extracted := er
      invokedRequester := true
      sent := run.sent
      displayedFeedback := returnValue run.outcome }
  else
    { extracted := er
      invokedRequester := false
      sent := []
      displayedFeedback := none }

/-- `sub` occurs in `s` as a contiguous substring. -/
def strContains (s sub : String) : Prop :=
  ∃ p q, s = p ++ sub ++ q

/-! ### Helper lemmas -/

theorem strData_append (a b : String) : (a ++ b).data = a.data ++ b.data := by
  cases a; cases b; rfl

theorem strAppend_assoc (a b c : String) : a ++ b ++ c = a ++ (b ++ c) := by
  cases a with
  | mk da =>
    cases b with
    | mk db =>
      cases c with
      | mk dc =>
        show String.mk (da ++ db ++ dc) = String.mk (da ++ (db ++ dc))
        rw [List.append_assoc]

theorem strAppend_left_cancel {a b c : String} (h : a ++ b = a ++ c) : b = c := by
  have hd : a.data ++ b.data = a.data ++ c.data := by
    rw [← strData_append, ← strData_append, h]
  have hbc : b.data = c.data := List.append_cancel_left hd
  cases b
  cases c
  exact congrArg String.mk hbc

theorem pyStrip_eq_empty {s : String} (h : ∀ c ∈ s.data, pyIsSpace c = true) :
    pyStrip s = "" := by
  have h1 : s.data.dropWhile pyIsSpace = [] := List.dropWhile_eq_nil_iff.2 h
  show String.mk (((s.data.dropWhile pyIsSpace).reverse.dropWhile pyIsSpace).reverse) = ""
  rw [h1]
  rfl

theorem ne_empty_of_pyStrip_ne_empty {s : String} (h : pyStrip s ≠ "") : s ≠ "" := by
  intro he
  subst he
  exact h rfl

theorem systemPrompt_of_nonblank {r : String} (h : pyStrip r ≠ "") :
    systemPrompt (some r) = system_prompt_base ++ tailoringClause (pyStrip r) := by
  show (if r ≠ "" ∧ pyStrip r ≠ "" then system_prompt_base ++ tailoringClause (pyStrip r)
    else system_prompt_base) = _
  rw [if_pos ⟨ne_empty_of_pyStrip_ne_empty h, h⟩]

/-- With a valid credential, `get_feedback_nvidia` posts exactly the one
request built on lines 47–85, whatever the network does. -/
theorem sent_of_valid_key {key : Option String} (net : HttpOutcome)
    (resume_text : String) (target_job_role : Option String)
    (h : apiKeyInvalid key = false) :
    (get_feedback_nvidia key net resume_text target_job_role).sent
      = [mkRequest (key.getD "") (systemPrompt target_job_role)
          (userContentPreamble ++ resume_text)] := by
  unfold get_feedback_nvidia
  rw [if_neg (by simp [h])]
  cases net with
  | transportError e => rfl
  | response status body =>
      by_cases hs : raiseForStatus status = true
      · simp [hs]
      · simp only [Bool.not_eq_true] at hs
        cases hc : firstChoiceContent body <;> simp [hs, hc]

/-- With a valid credential, the outcome of `get_feedback_nvidia` for a
response is determined by `raise_for_status` and the shape check. -/
theorem outcome_of_valid_key {key : Option String} (status : Nat)
    (body : ResponseJson) (resume_text : String)
    (target_job_role : Option String) (h : apiKeyInvalid key = false) :
    (get_feedback_nvidia key (.response status body) resume_text
        target_job_role).outcome
      = if raiseForStatus status then .networkError (.httpStatus status)
        else
          match firstChoiceContent body with
          | some s => .feedback s
          | none => .formatWarning := by
  unfold get_feedback_nvidia
  rw [if_neg (by simp [h])]
  by_cases hs : raiseForStatus status = true
  · simp [hs]
  · simp only [Bool.not_eq_true] at hs
    cases hc : firstChoiceContent body <;> simp [hs, hc]

theorem extract_ok_blank {t : String} (h : pyStrip t = "") :
    extract_resume_text (.ok t)
      = { text := "", warning := some emptyExtractionWarning, error := none } := by
  show (if pyStrip t = "" then
      ({ text := "", warning := some emptyExtractionWarning, error := none } :
        ExtractResult)
    else { text := t, warning := none, error := none }) = _
  rw [if_pos h]

theorem extract_ok_nonblank {t : String} (h : pyStrip t ≠ "") :
    extract_resume_text (.ok t) = { text := t, warning := none, error := none } := by
  show (if pyStrip t = "" then
      ({ text := "", warning := some emptyExtractionWarning, error := none } :
        ExtractResult)
    else { text := t, warning := none, error := none }) = _
  rw [if_neg h]

theorem extract_err_returns_empty (e : String) :
    extract_resume_text (.err e)
      = { text := "", warning := none
          error := some (extractionErrorMessage e) } := rfl

theorem pipelineRun_def (key : Option String) (net : HttpOutcome)
    (doc : ExtractionOutcome) (role : String) :
    pipelineRun key net doc role
      = if (extract_resume_text doc).text ≠ "" then
          { extracted := extract_resume_text doc
            invokedRequester := true
            sent := (get_feedback_nvidia key net (extract_resume_text doc).text
              (some role)).sent
            displayedFeedback := returnValue (get_feedback_nvidia key net
              (extract_resume_text doc).text (some role)).outcome }
        else
          { extracted := extract_resume_text doc
            invokedRequester := false
            sent := []
            displayedFeedback := none } := rfl

/-! ### Claim theorems -/

/-- C1: for every pipeline run in which the extracted text is empty or
whitespace-only, `get_feedback_nvidia` is never invoked, no request is
posted, the run shows the "empty extraction" warning, and no feedback is
displayed. -/
theorem C1_empty_extraction_no_network (key : Option String)
    (net : HttpOutcome) (t role : String) (h : pyStrip t = "") :
    (pipelineRun key net (.ok t) role).invokedRequester = false
    ∧ (pipelineRun key net (.ok t) role).sent = []
    ∧ (pipelineRun key net (.ok t) role).extracted.warning
        = some emptyExtractionWarning
    ∧ (pipelineRun key net (.ok t) role).displayedFeedback = none := by
  rw [pipelineRun_def, extract_ok_blank h]
  simp

theorem C1_empty_extraction_no_network_witness :
    (pipelineRun (some "key123") (.transportError "boom")
        (.ok " \n\t") "Data Scientist").invokedRequester = false
    ∧ (pipelineRun (some "key123") (.transportError "boom")
        (.ok " \n\t") "Data Scientist").sent = []
    ∧ (pipelineRun (some "key123") (.transportError "boom")
        (.ok " \n\t") "Data Scientist").extracted.warning
        = some emptyExtractionWarning
    ∧ (pipelineRun (some "key123") (.transportError "boom")
        (.ok " \n\t") "Data Scientist").displayedFeedback = none :=
  C1_empty_extraction_no_network (some "key123") (.transportError "boom")
    " \n\t" "Data Scientist" (by decide)

/-- C2: whenever the credential is missing, empty, equal to the placeholder,
or starts with the known-revoked test value, `get_feedback_nvidia` produces
the credential-error result, returns `None`, and posts no request. -/
theorem C2_invalid_credential_no_call (key : Option String)
    (net : HttpOutcome) (resume_text : String) (role : Option String)
    (h : key = none ∨ ∃ k, key = some k ∧
        (k = "" ∨ k = placeholderKey ∨ pyStartswith k revokedKeyStart = true)) :
    get_feedback_nvidia key net resume_text role
      = { sent := [], outcome := .apiKeyError }
    ∧ returnValue (get_feedback_nvidia key net resume_text role).outcome
        = none := by
  have hk : apiKeyInvalid key = true := by
    rcases h with rfl | ⟨k, rfl, hk⟩
    · rfl
    · show (k = "" || k = placeholderKey || pyStartswith k revokedKeyStart) = true
      rcases hk with h1 | h1 | h1 <;> simp [h1]
  have h1 : get_feedback_nvidia key net resume_text role
      = { sent := [], outcome := .apiKeyError } := by
    unfold get_feedback_nvidia
    rw [if_pos hk]
  exact ⟨h1, by rw [h1]; rfl⟩

theorem C2_invalid_credential_no_call_witness :
    get_feedback_nvidia (some "nvapi-ziMpyqbVXYZ") (.transportError "boom")
        "resume body" (some "Data Scientist")
      = { sent := [], outcome := .apiKeyError }
    ∧ returnValue (get_feedback_nvidia (some "nvapi-ziMpyqbVXYZ")
        (.transportError "boom") "resume body"
        (some "Data Scientist")).outcome = none :=
  C2_invalid_credential_no_call (some "nvapi-ziMpyqbVXYZ")
    (.transportError "boom") "resume body" (some "Data Scientist")
    (Or.inr ⟨"nvapi-ziMpyqbVXYZ", rfl, Or.inr (Or.inr (by decide))⟩)

/-- C3 counterexample: with the credential absent, a document whose
extraction yields non-empty text still produces no outbound request — the
credential check of line 43 precedes request construction, so the claim as
stated (exactly one request for every non-empty extraction) fails. -/
theorem C3_counterexample :
    (extract_resume_text (.ok "Hello")).text ≠ ""
    ∧ (pipelineRun none (.transportError "boom") (.ok "Hello") "").sent
        = [] := by
  constructor
  · decide
  · rfl

/-- C3 (amended): provided the credential check passes, every document
whose extraction yields non-empty text leads to exactly one outbound
request, whose user-content message is the fixed preamble followed by the
extracted text verbatim, and hence contains the extracted text as a
substring. -/
theorem C3_one_request_contains_text (key : Option String)
    (net : HttpOutcome) (doc : ExtractionOutcome) (role : String)
    (hk : apiKeyInvalid key = false)
    (ht : (extract_resume_text doc).text ≠ "") :
    (pipelineRun key net doc role).sent
      = [mkRequest (key.getD "") (systemPrompt (some role))
          (userContentPreamble ++ (extract_resume_text doc).text)]
    ∧ strContains (userContentPreamble ++ (extract_resume_text doc).text)
        ((extract_resume_text doc).text) := by
  constructor
  · rw [pipelineRun_def, if_pos ht]
    exact sent_of_valid_key net _ (some role) hk
  · exact ⟨userContentPreamble, "", by rw [String.append_empty]⟩

theorem C3_one_request_contains_text_witness :
    (pipelineRun (some "k") (.transportError "boom") (.ok "Hello") "").sent
      = [mkRequest "k" (systemPrompt (some ""))
          (userContentPreamble ++ "Hello")]
    ∧ strContains (userContentPreamble ++ "Hello") "Hello" :=
  C3_one_request_contains_text (some "k") (.transportError "boom")
    (.ok "Hello") "" (by decide) (by decide)

/-- C4 counterexample: for the non-blank role `" Zq"` (leading space) the
constructed system instructions are not the fixed template plus a tailoring
clause naming `" Zq"` verbatim — the source interpolates
`target_job_role.strip()`, so the clause names `"Zq"` instead. -/
theorem C4_counterexample :
    pyStrip " Zq" ≠ " Zq"
    ∧ systemPrompt (some " Zq")
        ≠ system_prompt_base ++ tailoringClause " Zq" := by
  constructor
  · decide
  · intro hcontra
    have h1 : systemPrompt (some " Zq")
        = system_prompt_base ++ tailoringClause (pyStrip " Zq") :=
      systemPrompt_of_nonblank (by decide)
    have h2 : system_prompt_base ++ tailoringClause (pyStrip " Zq")
        = system_prompt_base ++ tailoringClause " Zq" := by
      rw [← h1]
      exact hcontra
    have h3 := strAppend_left_cancel h2
    have h4 : pyStrip " Zq" = "Zq" := by decide
    rw [h4] at h3
    exact absurd h3 (by decide)

/-- C4 (amended): for every non-blank role `r` the system instructions are
the fixed template with exactly one appended tailoring clause naming the
whitespace-trimmed role `r.strip()` verbatim; in particular for
`"Data Scientist"` the instructions contain `"Data Scientist"` as a
substring and differ from the no-role instructions. -/
theorem C4_role_tailoring (r : String) (h : pyStrip r ≠ "") :
    systemPrompt (some r) = system_prompt_base ++ tailoringClause (pyStrip r)
    ∧ strContains (systemPrompt (some "Data Scientist")) "Data Scientist"
    ∧ systemPrompt (some "Data Scientist") ≠ systemPrompt none := by
  have hds : systemPrompt (some "Data Scientist")
      = system_prompt_base ++ tailoringClause (pyStrip "Data Scientist") :=
    systemPrompt_of_nonblank (by decide)
  have hps : pyStrip "Data Scientist" = "Data Scientist" := by decide
  rw [hps] at hds
  refine ⟨systemPrompt_of_nonblank h, ?_, ?_⟩
  · refine ⟨system_prompt_base
        ++ "\n\n**Special consideration:** The user is targeting a **",
      "** role. Please tailor your keyword and relevance analysis to this role.",
      ?_⟩
    rw [hds]
    unfold tailoringClause
    simp only [strAppend_assoc]
  · intro hcontra
    have h1 : system_prompt_base ++ tailoringClause "Data Scientist"
        = system_prompt_base ++ "" := by
      rw [String.append_empty, ← hds]
      exact hcontra
    have h2 := strAppend_left_cancel h1
    exact absurd h2 (by decide)

theorem C4_role_tailoring_witness :
    systemPrompt (some "Data Scientist")
      = system_prompt_base ++ tailoringClause (pyStrip "Data Scientist")
    ∧ strContains (systemPrompt (some "Data Scientist")) "Data Scientist"
    ∧ systemPrompt (some "Data Scientist") ≠ systemPrompt none :=
  C4_role_tailoring "Data Scientist" (by decide)

/-- C5: a whitespace-only target role yields system instructions
byte-identical to the no-role instructions. -/
theorem C5_whitespace_role_same_prompt (r : String)
    (h : ∀ c ∈ r.data, pyIsSpace c = true) :
    systemPrompt (some r) = systemPrompt none := by
  have hs : pyStrip r = "" := pyStrip_eq_empty h
  show (if r ≠ "" ∧ pyStrip r ≠ "" then
      system_prompt_base ++ tailoringClause (pyStrip r)
    else system_prompt_base) = systemPrompt none
  rw [if_neg (by simp [hs])]
  rfl

theorem C5_whitespace_role_same_prompt_witness :
    systemPrompt (some "  \t\n") = systemPrompt none :=
  C5_whitespace_role_same_prompt "  \t\n" (by decide)

/-- C6: an HTTP-success (2xx) response whose first choice carries a
message-content string makes `get_feedback_nvidia` return that string
verbatim. -/
theorem C6_success_content_verbatim (key : Option String) (status : Nat)
    (s : String) (rest : List RChoice) (resume_text : String)
    (role : Option String) (hk : apiKeyInvalid key = false)
    (h2 : 200 ≤ status) (h3 : status < 300) :
    (get_feedback_nvidia key
        (.response status ⟨some ({ message := some { content := some s } } :: rest)⟩)
        resume_text role).outcome = .feedback s
    ∧ returnValue (get_feedback_nvidia key
        (.response status ⟨some ({ message := some { content := some s } } :: rest)⟩)
        resume_text role).outcome = some s := by
  have hs : raiseForStatus status = false := by
    unfold raiseForStatus
    have h4 : ¬ 400 ≤ status := by omega
    simp [h4]
  have h1 : (get_feedback_nvidia key
      (.response status ⟨some ({ message := some { content := some s } } :: rest)⟩)
      resume_text role).outcome = .feedback s := by
    rw [outcome_of_valid_key status _ resume_text role hk, hs]
    rfl
  exact ⟨h1, by rw [h1]; rfl⟩

theorem C6_success_content_verbatim_witness :
    (get_feedback_nvidia (some "k")
        (.response 200 ⟨some [{ message := some { content := some "### Summary\nLooks strong." } }]⟩)
        "resume body" none).outcome = .feedback "### Summary\nLooks strong."
    ∧ returnValue (get_feedback_nvidia (some "k")
        (.response 200 ⟨some [{ message := some { content := some "### Summary\nLooks strong." } }]⟩)
        "resume body" none).outcome = some "### Summary\nLooks strong." :=
  C6_success_content_verbatim (some "k") 200 "### Summary\nLooks strong."
    [] "resume body" none (by decide) (by decide) (by decide)

/-- C7: an HTTP-success (2xx) response whose JSON body lacks the expected
first-choice message-content shape — missing `choices`, empty `choices`,
missing `message`, or missing `content` — yields the
unexpected-response-format warning and no feedback. -/
theorem C7_malformed_success_warning (key : Option String) (status : Nat)
    (body : ResponseJson) (resume_text : String) (role : Option String)
    (hk : apiKeyInvalid key = false) (h2 : 200 ≤ status) (h3 : status < 300)
    (hshape : body.choices = none ∨ body.choices = some []
      ∨ ∃ c cs, body.choices = some (c :: cs)
          ∧ (c.message = none ∨ ∃ m, c.message = some m ∧ m.content = none)) :
    (get_feedback_nvidia key (.response status body) resume_text role).outcome
        = .formatWarning
    ∧ returnValue (get_feedback_nvidia key (.response status body)
        resume_text role).outcome = none := by
  have hs : raiseForStatus status = false := by
    unfold raiseForStatus
    have h4 : ¬ 400 ≤ status := by omega
    simp [h4]
  have hfc : firstChoiceContent body = none := by
    unfold firstChoiceContent
    rcases hshape with h | h | ⟨c, cs, h, hc⟩
    · rw [h]
    · rw [h]
    · rcases hc with hm | ⟨m, hm, hcont⟩
      · rw [h]
        show (match c.message with | some m => m.content | none => none) = none
        rw [hm]
      · rw [h]
        show (match c.message with | some m => m.content | none => none) = none
        rw [hm]
        exact hcont
  have h1 : (get_feedback_nvidia key (.response status body)
      resume_text role).outcome = .formatWarning := by
    rw [outcome_of_valid_key status body resume_text role hk, hs, hfc]
    rfl
  exact ⟨h1, by rw [h1]; rfl⟩

theorem C7_malformed_success_warning_witness :
    (get_feedback_nvidia (some "k") (.response 200 ⟨some []⟩)
        "resume body" none).outcome = .formatWarning
    ∧ returnValue (get_feedback_nvidia (some "k") (.response 200 ⟨some []⟩)
        "resume body" none).outcome = none :=
  C7_malformed_success_warning (some "k") 200 ⟨some []⟩ "resume body" none
    (by decide) (by decide) (by decide) (Or.inr (Or.inl rfl))

/-- C8 counterexample: a 300-status response is not a 2xx success, yet
`raise_for_status` raises only for statuses in `[400, 600)`, so the code
proceeds to parse the body and returns feedback — the claim as stated
(every non-2xx response is classified a network/API error) fails. -/
theorem C8_counterexample :
    (get_feedback_nvidia (some "k")
        (.response 300 ⟨some [{ message := some { content := some "ok" } }]⟩)
        "r" none).outcome = .feedback "ok"
    ∧ returnValue (get_feedback_nvidia (some "k")
        (.response 300 ⟨some [{ message := some { content := some "ok" } }]⟩)
        "r" none).outcome = some "ok" :=
  ⟨rfl, rfl⟩

/-- C8 (amended): every HTTP response with a 4xx or 5xx status, and every
transport exception, is classified as a network/API error carrying the
underlying detail (the status, resp. the exception text), and no feedback
is returned. -/
theorem C8_http_and_transport_errors (key : Option String)
    (resume_text : String) (role : Option String) (status : Nat)
    (body : ResponseJson) (detail : String) (hk : apiKeyInvalid key = false)
    (h4 : 400 ≤ status) (h6 : status < 600) :
    ((get_feedback_nvidia key (.response status body) resume_text role).outcome
        = .networkError (.httpStatus status)
      ∧ returnValue (get_feedback_nvidia key (.response status body)
          resume_text role).outcome = none)
    ∧ ((get_feedback_nvidia key (.transportError detail) resume_text role).outcome
        = .networkError (.transport detail)
      ∧ returnValue (get_feedback_nvidia key (.transportError detail)
          resume_text role).outcome = none) := by
  have hs : raiseForStatus status = true := by
    unfold raiseForStatus
    simp [h4, h6]
  have h1 : (get_feedback_nvidia key (.response status body)
      resume_text role).outcome = .networkError (.httpStatus status) := by
    rw [outcome_of_valid_key status body resume_text role hk, hs]
    rfl
  have h2 : (get_feedback_nvidia key (.transportError detail)
      resume_text role).outcome = .networkError (.transport detail) := by
    unfold get_feedback_nvidia
    rw [if_neg (by simp [hk])]
  exact ⟨⟨h1, by rw [h1]; rfl⟩, ⟨h2, by rw [h2]; rfl⟩⟩

theorem C8_http_and_transport_errors_witness :
    ((get_feedback_nvidia (some "k") (.response 401 ⟨none⟩)
        "resume body" none).outcome = .networkError (.httpStatus 401)
      ∧ returnValue (get_feedback_nvidia (some "k") (.response 401 ⟨none⟩)
          "resume body" none).outcome = none)
    ∧ ((get_feedback_nvidia (some "k")
          (.transportError "connection timed out") "resume body" none).outcome
        = .networkError (.transport "connection timed out")
      ∧ returnValue (get_feedback_nvidia (some "k")
          (.transportError "connection timed out") "resume body"
          none).outcome = none) :=
  C8_http_and_transport_errors (some "k") "resume body" none 401 ⟨none⟩
    "connection timed out" (by decide) (by decide) (by decide)

/-- C9: `extract_resume_text` returns a string on every input — the
extraction-failure case and the whitespace-only case both return the empty
string, so the two are indistinguishable by return value. -/
theorem C9_extraction_total_indistinguishable (e t : String)
    (h : pyStrip t = "") :
    (extract_resume_text (.err e)).text = ""
    ∧ (extract_resume_text (.ok t)).text = ""
    ∧ (extract_resume_text (.err e)).text = (extract_resume_text (.ok t)).text := by
  have h2 : (extract_resume_text (.ok t)).text = "" := by
    rw [extract_ok_blank h]
  have h1 : (extract_resume_text (.err e)).text = "" := by
    rw [extract_err_returns_empty e]
  exact ⟨h1, h2, by rw [h1, h2]⟩

theorem C9_extraction_total_indistinguishable_witness :
    (extract_resume_text (.err "PDFSyntaxError: not a PDF")).text = ""
    ∧ (extract_resume_text (.ok "  ")).text = ""
    ∧ (extract_resume_text (.err "PDFSyntaxError: not a PDF")).text
        = (extract_resume_text (.ok "  ")).text :=
  C9_extraction_total_indistinguishable "PDFSyntaxError: not a PDF" "  "
    (by decide)

/-- C10: `target_job_role` defaults to `None`, and the `None`, empty-string
and whitespace-only roles all produce the same (no-role) system
instructions. -/
theorem C10_none_default_role_equivalences (key : Option String)
    (net : HttpOutcome) (resume_text r : String)
    (h : ∀ c ∈ r.data, pyIsSpace c = true) :
    get_feedback_nvidia key net resume_text
        = get_feedback_nvidia key net resume_text none
    ∧ systemPrompt none = system_prompt_base
    ∧ systemPrompt (some "") = systemPrompt none
    ∧ systemPrompt (some r) = systemPrompt none := by
  refine ⟨rfl, rfl, rfl, ?_⟩
  have hs : pyStrip r = "" := pyStrip_eq_empty h
  show (if r ≠ "" ∧ pyStrip r ≠ "" then
      system_prompt_base ++ tailoringClause (pyStrip r)
    else system_prompt_base) = systemPrompt none
  rw [if_neg (by simp [hs])]
  rfl

theorem C10_none_default_role_equivalences_witness :
    get_feedback_nvidia (some "k") (.transportError "boom") "resume body"
        = get_feedback_nvidia (some "k") (.transportError "boom") "resume body" none
    ∧ systemPrompt none = system_prompt_base
    ∧ systemPrompt (some "") = systemPrompt none
    ∧ systemPrompt (some " ") = systemPrompt none :=
  C10_none_default_role_equivalences (some "k") (.transportError "boom")
    "resume body" " " (by decide)

end ResumeReviewer
